import Mathlib

set_option maxHeartbeats 1000000

/-! Shallow embedding of the Lost-Found application's data model and
operations (Mongoose schemas for User, Item, Chat, Message and the Express
routes over them), together with theorems settling the specification's
claims. Object ids and timestamps are modelled as naturals; the Mongo Map
of per-user unread counters is modelled as a total function with default
value 0; the geodesic distance computed by the database's $near operator
is an explicit parameter. -/

/-- Geographic coordinates, from the location.coordinates subdocument
(lat, lng). The numeric values are abstracted as integers; only the
distance function parameter consumes them. -/
structure Coordinates where
  lat : Int
  lng : Int
deriving DecidableEq, Repr

/-- The type enum of itemSchema: 'lost' or 'found'. -/
inductive ItemType
  | lost
  | found
deriving DecidableEq, Repr

/-- The ternary in findPotentialMatches: type === 'lost' ? 'found' : 'lost'. -/
def oppositeType : ItemType → ItemType
  | ItemType.lost => ItemType.found
  | ItemType.found => ItemType.lost

/-- The status enum of itemSchema: 'active', 'resolved' or 'expired'. -/
inductive ItemStatus
  | active
  | resolved
  | expired
deriving DecidableEq, Repr

/-- The location subdocument of itemSchema. -/
structure Location where
  address : String
  city : String
  state : String
  country : String
  coordinates : Coordinates
deriving DecidableEq, Repr

/-- The contactInfo subdocument of itemSchema. -/
structure ContactInfo where
  phone : String
  email : String
  preferredContact : String
deriving DecidableEq, Repr

/-- The reward subdocument of itemSchema. -/
structure Reward where
  amount : Int
  currency : String
  description : String
deriving DecidableEq, Repr

/-- An entry of itemSchema.potentialMatches: a matched item id with a
confidence score. -/
structure PotentialMatch where
  itemId : Nat
  confidence : ℚ
deriving DecidableEq, Repr

/-- An entry of itemSchema.images. -/
structure Image where
  url : String
  publicId : String
  caption : String
deriving DecidableEq, Repr

/-- An Item document (itemSchema). -/
structure Item where
  id : Nat
  title : String
  description : String
  type : ItemType
  category : String
  images : List Image
  location : Location
  date : Nat
  status : ItemStatus
  isResolved : Bool
  resolvedAt : Option Nat
  resolvedBy : Option Nat
  contactInfo : Option ContactInfo
  reward : Option Reward
  tags : List String
  views : Nat
  potentialMatches : List PotentialMatch
  postedBy : Nat
  expiresAt : Nat
deriving DecidableEq, Repr

/-- The query filter of Item.findPotentialMatches: _id ≠ itemId, opposite
type, same category, status 'active', and within $maxDistance 50000 meters
of the query coordinates (dist is the geodesic distance the database
evaluates). -/
def matchesQueryPred (dist : Coordinates → Coordinates → Nat) (itemId : Nat)
    (type : ItemType) (category : String) (coordinates : Coordinates)
    (it : Item) : Bool :=
  it.id != itemId && it.type == oppositeType type && it.category == category &&
    it.status == ItemStatus.active &&
    decide (dist coordinates it.location.coordinates ≤ 50000)

/-- Item.findPotentialMatches: the items of db passing matchesQueryPred,
ordered nearest first (the $near operator returns documents by increasing
distance), limited to 10. -/
def findPotentialMatches (db : List Item) (dist : Coordinates → Coordinates → Nat)
    (itemId : Nat) (type : ItemType) (category : String)
    (coordinates : Coordinates) : List Item :=
  ((db.filter (matchesQueryPred dist itemId type category coordinates)).mergeSort
    (fun a b =>
      decide (dist coordinates a.location.coordinates ≤
        dist coordinates b.location.coordinates))).take 10

/-- A badge entry of userSchema.badges; earnedAt (a schema default) is
omitted, no verified operation reads it. -/
structure Badge where
  name : String
  description : String
deriving DecidableEq, Repr

/-- A User document (userSchema), restricted to the fields the verified
operations touch. -/
structure User where
  id : Nat
  points : Nat
  level : Nat
  badges : List Badge
  itemsPosted : Nat
  itemsReturned : Nat
deriving DecidableEq, Repr

/-- The badge object pushed by addPoints on a level up. -/
def levelBadge (n : Nat) : Badge :=
  { name := s!"Level {n}", description := s!"Reached level {n}!" }

/-- userSchema.methods.addPoints: this.points += points, then
newLevel = Math.floor(points / 100) + 1; when newLevel exceeds the current
level, the level is set and one level badge is pushed. -/
def addPoints (u : User) (p : Nat) : User :=
  let pts := u.points + p
  let newLevel := pts / 100 + 1
  if u.level < newLevel then
    { u with points := pts, level := newLevel,
             badges := u.badges ++ [levelBadge newLevel] }
  else
    { u with points := pts }

/-- itemSchema.methods.markAsResolved: status 'resolved', isResolved true,
resolvedAt now, resolvedBy the given user. -/
def markAsResolved (it : Item) (resolvedByUserId now : Nat) : Item :=
  { it with status := ItemStatus.resolved, isResolved := true,
            resolvedAt := some now, resolvedBy := some resolvedByUserId }

/-- PUT /api/items/:id/resolve after the item and the caller's user document
are fetched: ownership check, markAsResolved, then addPoints(50) — with no
guard against the item being already resolved. -/
def resolveItem (item : Item) (user : User) (callerId now : Nat) :
    Except String (Item × User) :=
  if item.postedBy != callerId then Except.error "Not authorized"
  else Except.ok (markAsResolved item callerId now, addPoints user 50)

/-- The body of PUT /api/items/:id. A field is none when absent or falsy in
the request (for the three string fields an empty string is also falsy and
is modelled as none by the guard in updateItemFields). -/
structure UpdateBody where
  title : Option String
  description : Option String
  category : Option String
  location : Option Location
  tags : Option (List String)
  reward : Option Reward
  contactInfo : Option ContactInfo

/-- The field assignments of PUT /api/items/:id: if (title) item.title =
title; and so on for description, category, location, tags, reward and
contactInfo. No other field is assigned. -/
def updateItemFields (it : Item) (b : UpdateBody) : Item :=
  let it1 := match b.title with
    | some t => if t = "" then it else { it with title := t }
    | none => it
  let it2 := match b.description with
    | some d => if d = "" then it1 else { it1 with description := d }
    | none => it1
  let it3 := match b.category with
    | some c => if c = "" then it2 else { it2 with category := c }
    | none => it2
  let it4 := match b.location with
    | some l => { it3 with location := l }
    | none => it3
  let it5 := match b.tags with
    | some tg => { it4 with tags := tg }
    | none => it4
  let it6 := match b.reward with
    | some r => { it5 with reward := some r }
    | none => it5
  match b.contactInfo with
  | some ci => { it6 with contactInfo := some ci }
  | none => it6

/-- PUT /api/items/:id: ownership check, then the field assignments. -/
def updateItem (it : Item) (callerId : Nat) (b : UpdateBody) :
    Except String Item :=
  if it.postedBy != callerId then Except.error "Not authorized"
  else Except.ok (updateItemFields it b)

/-- itemSchema.methods.addPotentialMatch: pushes {itemId, confidence} unless
an entry with that itemId already exists. -/
def addPotentialMatch (it : Item) (itemId : Nat) (confidence : ℚ) : Item :=
  if it.potentialMatches.any (fun m => m.itemId == itemId) then it
  else { it with potentialMatches :=
    it.potentialMatches ++ [{ itemId := itemId, confidence := confidence }] }

/-- The validated body of POST /api/items after JSON parsing. -/
structure CreateInput where
  title : String
  description : String
  type : ItemType
  category : String
  location : Location
  date : Nat
  tags : List String
  reward : Option Reward
  contactInfo : Option ContactInfo

/-- The item document built by POST /api/items before save; schema defaults
supply status 'active', views 0, empty potentialMatches and
expiresAt = now + 30 days (30 * 24 * 60 * 60 * 1000 milliseconds). -/
def newItemDoc (newId posterId now : Nat) (inp : CreateInput)
    (images : List Image) : Item :=
  { id := newId, title := inp.title, description := inp.description,
    type := inp.type, category := inp.category, images := images,
    location := inp.location, date := inp.date, status := ItemStatus.active,
    isResolved := false, resolvedAt := none, resolvedBy := none,
    contactInfo := inp.contactInfo, reward := inp.reward, tags := inp.tags,
    views := 0, potentialMatches := [], postedBy := posterId,
    expiresAt := now + 30 * 24 * 60 * 60 * 1000 }

/-- The item collection paired with the posting user's document. -/
structure CreateState where
  items : List Item
  user : User

/-- The outcome of POST /api/items: the stored collection and user, and the
item as returned to the client. -/
structure CreateResult where
  items : List Item
  user : User
  item : Item

/-- POST /api/items: saves the new item, increments the poster's
itemsPosted ($inc), awards 10 points via addPoints, runs
findPotentialMatches for the new item and appends each result through
addPotentialMatch with the fixed confidence 0.7. -/
def createItem (st : CreateState) (dist : Coordinates → Coordinates → Nat)
    (newId posterId now : Nat) (inp : CreateInput) (images : List Image) :
    CreateResult :=
  let item := newItemDoc newId posterId now inp images
  let items1 := st.items ++ [item]
  let user1 := { st.user with itemsPosted := st.user.itemsPosted + 1 }
  let user2 := addPoints user1 10
  let cands := findPotentialMatches items1 dist item.id item.type
    item.category item.location.coordinates
  let item2 := cands.foldl
    (fun acc m => addPotentialMatch acc m.id (7 / 10 : ℚ)) item
  { items := st.items ++ [item2], user := user2, item := item2 }

/-- The denormalized lastMessage snapshot of chatSchema. -/
structure LastMessage where
  content : String
  sender : Nat
  timestamp : Nat
deriving DecidableEq, Repr

/-- A Chat document (chatSchema). The Mongo Map unreadCount (of Number,
default empty) is modelled as a total function defaulting to 0, matching
this.unreadCount.get(k) || 0. -/
structure Chat where
  id : Nat
  participants : List Nat
  itemId : Nat
  lastMessage : Option LastMessage
  unreadCount : Nat → Nat
  isActive : Bool
  startedAt : Nat
  lastActivity : Nat

/-- chatSchema.methods.markAsRead: sets the user's unread counter to 0 and
touches lastActivity. -/
def Chat.markAsRead (c : Chat) (userId now : Nat) : Chat :=
  { c with unreadCount := fun k => if k = userId then 0 else c.unreadCount k,
           lastActivity := now }

/-- chatSchema.methods.incrementUnread: adds 1 to the user's unread counter
(current count or 0) and touches lastActivity. -/
def Chat.incrementUnread (c : Chat) (userId now : Nat) : Chat :=
  { c with unreadCount :=
             fun k => if k = userId then c.unreadCount userId + 1
                      else c.unreadCount k,
           lastActivity := now }

/-- The sort in Chat.findOrCreate: [userId1, userId2].sort() on the two
participant ids. -/
def sortPair (a b : Nat) : List Nat := if a ≤ b then [a, b] else [b, a]

/-- The lookup filter of Chat.findOrCreate: participants: {$all: ps} and
itemId equality; $all requires every listed id to occur in the document's
participants array. -/
def chatLookupPred (ps : List Nat) (itemId : Nat) (c : Chat) : Bool :=
  ps.all (fun p => c.participants.contains p) && c.itemId == itemId

/-- Chat.findOrCreate: sorts the two participants, looks a chat up by
$all participants and itemId, and creates one when none exists (schema
defaults: no lastMessage, empty unread counters, isActive true). Returns
the chat together with the chat collection afterwards. -/
def findOrCreate (db : List Chat) (newId userId1 userId2 itemId now : Nat) :
    Chat × List Chat :=
  let ps := sortPair userId1 userId2
  match db.find? (chatLookupPred ps itemId) with
  | some chat => (chat, db)
  | none =>
    let chat : Chat :=
      { id := newId, participants := ps, itemId := itemId,
        lastMessage := none, unreadCount := fun _ => 0, isActive := true,
        startedAt := now, lastActivity := now }
    (chat, db ++ [chat])

/-- An entry of messageSchema.readBy. -/
structure ReadEntry where
  userId : Nat
  readAt : Nat
deriving DecidableEq, Repr

/-- A Message document (messageSchema), restricted to the fields the
verified operations touch. -/
structure Message where
  id : Nat
  chatId : Nat
  sender : Nat
  content : String
  messageType : String
  readBy : List ReadEntry
  createdAt : Nat
deriving DecidableEq, Repr

/-- The query shared by Message.getUnreadCount and the updateMany of
GET /api/chat/:chatId/messages: chatId, sender ≠ userId, and readBy holding
no entry for userId. -/
def unreadPred (chatId userId : Nat) (m : Message) : Bool :=
  m.chatId == chatId && m.sender != userId &&
    !(m.readBy.any (fun r => r.userId == userId))

/-- Message.getUnreadCount: countDocuments over unreadPred. -/
def getUnreadCount (msgs : List Message) (chatId userId : Nat) : Nat :=
  (msgs.filter (unreadPred chatId userId)).length

/-- One chat document together with the message collection. -/
structure ChatState where
  chat : Chat
  messages : List Message

/-- Message creation with the messageSchema pre-save hook: the message is
stored with empty readBy; the hook writes the chat's lastMessage and
lastActivity and calls incrementUnread for every participant other than
the sender. -/
def saveMessage (st : ChatState) (senderId : Nat) (content : String)
    (msgId now : Nat) : ChatState :=
  let msg : Message :=
    { id := msgId, chatId := st.chat.id, sender := senderId,
      content := content, messageType := "text", readBy := [],
      createdAt := now }
  let c1 : Chat := { st.chat with
    lastMessage := some { content := content, sender := senderId,
                          timestamp := now },
    lastActivity := now }
  let c2 := st.chat.participants.foldl
    (fun acc p => if p != senderId then Chat.incrementUnread acc p now else acc)
    c1
  { chat := c2, messages := st.messages ++ [msg] }

/-- POST /api/chat/:chatId/messages: participant check, then the message is
saved (running the pre-save hook). -/
def sendMessage (st : ChatState) (senderId : Nat) (content : String)
    (msgId now : Nat) : Except String ChatState :=
  if st.chat.participants.contains senderId then
    Except.ok (saveMessage st senderId content msgId now)
  else Except.error "Not authorized to send messages in this chat"

/-- The query Message.find({chatId}).sort({createdAt: -1}): the chat's
messages, newest first. -/
def sortNewestFirst (msgs : List Message) (chatId : Nat) : List Message :=
  (msgs.filter (fun m => m.chatId == chatId)).mergeSort
    (fun a b => decide (b.createdAt ≤ a.createdAt))

/-- The updateMany of GET /api/chat/:chatId/messages: every message of the
chat whose sender is not the requester and whose readBy has no entry for
the requester gains one; the filter carries no page restriction. -/
def markAllReadBy (msgs : List Message) (chatId requester now : Nat) :
    List Message :=
  msgs.map (fun m =>
    if unreadPred chatId requester m then
      { m with readBy := m.readBy ++ [{ userId := requester, readAt := now }] }
    else m)

/-- The outcome of GET /api/chat/:chatId/messages: the delivered page and
the stored chat and message collection afterwards. -/
structure ListMessagesResult where
  page : List Message
  chat : Chat
  messages : List Message

/-- GET /api/chat/:chatId/messages: participant check; the requested page of
the chat's messages newest first (skip = (page-1)*limit), delivered
reversed, oldest first; side effects: updateMany appends a readBy entry for
the requester to every unread message of the chat, and chat.markAsRead
zeroes the requester's unread counter. -/
def listMessages (chat : Chat) (msgs : List Message)
    (requester page limit now : Nat) : Except String ListMessagesResult :=
  if chat.participants.contains requester then
    let skip := (page - 1) * limit
    let pageMsgs := ((sortNewestFirst msgs chat.id).drop skip).take limit
    Except.ok
      { page := pageMsgs.reverse,
        chat := Chat.markAsRead chat requester now,
        messages := markAllReadBy msgs chat.id requester now }
  else Except.error "Not authorized to access this chat"

/-- PUT /api/chat/:chatId/read: participant check, then chat.markAsRead.
The message collection is not touched. -/
def markChatRead (chat : Chat) (msgs : List Message) (requester now : Nat) :
    Except String (Chat × List Message) :=
  if chat.participants.contains requester then
    Except.ok (Chat.markAsRead chat requester now, msgs)
  else Except.error "Not authorized to access this chat"

/-- The collections POST /api/chat/start works over. -/
structure AppState where
  items : List Item
  chats : List Chat
  messages : List Message

/-- POST /api/chat/start: looks the item up (404 when absent); a requester
equal to the item's poster is rejected with 400 before findOrCreate runs;
otherwise findOrCreate, then an optional initial message is saved when its
content differs from the chat's lastMessage content. -/
def startChat (st : AppState) (requester itemId newChatId newMsgId now : Nat)
    (message : Option String) : Except (Nat × String) AppState :=
  match st.items.find? (fun it => it.id == itemId) with
  | none => Except.error (404, "Item not found")
  | some item =>
    if item.postedBy == requester then
      Except.error (400, "Cannot start chat with yourself")
    else
      let fc := findOrCreate st.chats newChatId requester item.postedBy itemId now
      match message with
      | some content =>
        if (fc.1.lastMessage.map (fun lm => lm.content)) != some content then
          let st2 := saveMessage { chat := fc.1, messages := st.messages }
            requester content newMsgId now
          Except.ok
            { items := st.items,
              chats := fc.2.map (fun c => if c.id == fc.1.id then st2.chat else c),
              messages := st2.messages }
        else Except.ok { st with chats := fc.2 }
      | none => Except.ok { st with chats := fc.2 }

/-- Concrete coordinates used by the witnesses. -/
def exCoord : Coordinates := ⟨0, 0⟩

/-- Concrete taxicab distance used by the witnesses (any distance function
works; the database's geodesic distance is a parameter of the model). -/
def exDist : Coordinates → Coordinates → Nat :=
  fun a b => (a.lat - b.lat).natAbs + (a.lng - b.lng).natAbs

/-- Concrete 'found' item used by the witnesses. -/
def itemA : Item :=
  { id := 2, title := "Found phone", description := "Black phone",
    type := ItemType.found, category := "Electronics", images := [],
    location := { address := "5th Ave", city := "Metropolis", state := "NY",
                  country := "US", coordinates := ⟨1, 1⟩ },
    date := 0, status := ItemStatus.active, isResolved := false,
    resolvedAt := none, resolvedBy := none, contactInfo := none,
    reward := none, tags := [], views := 0, potentialMatches := [],
    postedBy := 7, expiresAt := 0 }

/-- Concrete fresh user (schema defaults) used by the witnesses. -/
def userZ : User :=
  { id := 1, points := 0, level := 1, badges := [], itemsPosted := 0,
    itemsReturned := 0 }

/-- Concrete lost item posted by user 1, used by the witnesses. -/
def itemR : Item :=
  { id := 1, title := "Lost wallet", description := "Brown wallet",
    type := ItemType.lost, category := "Documents", images := [],
    location := { address := "Main St", city := "Metropolis", state := "NY",
                  country := "US", coordinates := ⟨0, 0⟩ },
    date := 0, status := ItemStatus.active, isResolved := false,
    resolvedAt := none, resolvedBy := none, contactInfo := none,
    reward := none, tags := [], views := 3, potentialMatches := [],
    postedBy := 1, expiresAt := 100 }

/-- Concrete chat between users 1 and 2 about item 5, used by the
witnesses. -/
def chatC : Chat :=
  { id := 1, participants := [1, 2], itemId := 5, lastMessage := none,
    unreadCount := fun _ => 0, isActive := true, startedAt := 0,
    lastActivity := 0 }

/-- Concrete unread message from user 2 in chatC, created at time 10. -/
def msgA : Message :=
  { id := 1, chatId := 1, sender := 2, content := "hello",
    messageType := "text", readBy := [], createdAt := 10 }

/-- Concrete unread message from user 2 in chatC, created at time 20. -/
def msgB : Message :=
  { id := 2, chatId := 1, sender := 2, content := "are you there",
    messageType := "text", readBy := [], createdAt := 20 }

/-- Concrete update request body used by the witnesses. -/
def bodyU : UpdateBody :=
  { title := some "New title", description := none, category := none,
    location := none, tags := some ["red"], reward := none,
    contactInfo := none }

/-- Concrete create input used by the witnesses: a lost Electronics item at
the origin. -/
def inpC : CreateInput :=
  { title := "Lost phone", description := "Black phone",
    type := ItemType.lost, category := "Electronics",
    location := { address := "5th Ave", city := "Metropolis", state := "NY",
                  country := "US", coordinates := ⟨0, 0⟩ },
    date := 0, tags := [], reward := none, contactInfo := none }

/-- oppositeType never returns its argument. -/
theorem oppositeType_ne (t : ItemType) : oppositeType t ≠ t := by
  cases t <;> simp [oppositeType]

/-- Unfolding of membership in findPotentialMatches down to the filter. -/
theorem mem_findPotentialMatches {db : List Item}
    {dist : Coordinates → Coordinates → Nat} {itemId : Nat} {type : ItemType}
    {category : String} {coordinates : Coordinates} {x : Item}
    (hx : x ∈ findPotentialMatches db dist itemId type category coordinates) :
    matchesQueryPred dist itemId type category coordinates x = true := by
  have h1 : x ∈ (db.filter (matchesQueryPred dist itemId type category coordinates)).mergeSort
      (fun a b =>
        decide (dist coordinates a.location.coordinates ≤
          dist coordinates b.location.coordinates)) :=
    (List.take_sublist _ _).mem hx
  have h2 := List.mem_mergeSort.mp h1
  exact List.of_mem_filter h2

/-- C1: findPotentialMatches never returns the item itself, never an item of
the same type (it returns only items of the opposite type in the same
category), returns only items with status 'active', never returns items
farther than 50 km from the given coordinates, and returns at most 10 items
ordered nearest first. -/
theorem findPotentialMatches_correct (db : List Item)
    (dist : Coordinates → Coordinates → Nat) (itemId : Nat) (type : ItemType)
    (category : String) (coordinates : Coordinates) :
    (∀ x ∈ findPotentialMatches db dist itemId type category coordinates,
      x.id ≠ itemId ∧ x.type ≠ type ∧ x.type = oppositeType type ∧
      x.category = category ∧ x.status = ItemStatus.active ∧
      dist coordinates x.location.coordinates ≤ 50000) ∧
    (findPotentialMatches db dist itemId type category coordinates).length ≤ 10 ∧
    (findPotentialMatches db dist itemId type category coordinates).Pairwise
      (fun a b => dist coordinates a.location.coordinates ≤
        dist coordinates b.location.coordinates) := by
  refine ⟨?_, ?_, ?_⟩
  · intro x hx
    have h := mem_findPotentialMatches hx
    simp only [matchesQueryPred, Bool.and_eq_true, bne_iff_ne, ne_eq,
      beq_iff_eq, decide_eq_true_eq] at h
    obtain ⟨⟨⟨⟨h1, h2⟩, h3⟩, h4⟩, h5⟩ := h
    exact ⟨h1, h2 ▸ oppositeType_ne type, h2, h3, h4, h5⟩
  · exact List.length_take_le _ _
  · have htrans : ∀ a b c : Item,
        (decide (dist coordinates a.location.coordinates ≤
          dist coordinates b.location.coordinates) = true) →
        (decide (dist coordinates b.location.coordinates ≤
          dist coordinates c.location.coordinates) = true) →
        (decide (dist coordinates a.location.coordinates ≤
          dist coordinates c.location.coordinates) = true) := by
      intro a b c hab hbc
      simp only [decide_eq_true_eq] at *
      exact Nat.le_trans hab hbc
    have htotal : ∀ a b : Item,
        ((decide (dist coordinates a.location.coordinates ≤
          dist coordinates b.location.coordinates) ||
          decide (dist coordinates b.location.coordinates ≤
          dist coordinates a.location.coordinates)) = true) := by
      intro a b
      simp only [Bool.or_eq_true, decide_eq_true_eq]
      exact Nat.le_total _ _
    have hs := List.sorted_mergeSort htrans htotal
      (db.filter (matchesQueryPred dist itemId type category coordinates))
    have hp : (findPotentialMatches db dist itemId type category coordinates).Pairwise
        (fun a b =>
          decide (dist coordinates a.location.coordinates ≤
            dist coordinates b.location.coordinates) = true) :=
      List.Pairwise.sublist (List.take_sublist _ _) hs
    exact hp.imp (fun h => by simpa using h)

/-- Witness for C1: on a concrete one-item database the query returns the
item and the guarantees hold for it. -/
theorem findPotentialMatches_correct_witness :
    itemA ∈ findPotentialMatches [itemA] exDist 1 ItemType.lost "Electronics" exCoord ∧
    itemA.id ≠ 1 ∧ itemA.type ≠ ItemType.lost ∧ itemA.category = "Electronics" := by
  have he : findPotentialMatches [itemA] exDist 1 ItemType.lost "Electronics" exCoord
      = [itemA] := by
    unfold findPotentialMatches
    rw [show List.filter
      (matchesQueryPred exDist 1 ItemType.lost "Electronics" exCoord) [itemA]
      = [itemA] from rfl]
    rw [List.mergeSort_singleton]
    rfl
  have hmem : itemA ∈ findPotentialMatches [itemA] exDist 1 ItemType.lost
      "Electronics" exCoord := by
    rw [he]; exact List.mem_singleton.mpr rfl
  have h := (findPotentialMatches_correct [itemA] exDist 1 ItemType.lost
    "Electronics" exCoord).1 itemA hmem
  exact ⟨hmem, h.1, h.2.1, h.2.2.2.1⟩

/-- addPoints adds exactly the given points. -/
theorem addPoints_points (u : User) (p : Nat) :
    (addPoints u p).points = u.points + p := by
  unfold addPoints
  by_cases h : u.level < (u.points + p) / 100 + 1 <;> simp [h]

/-- addPoints does not touch itemsPosted. -/
theorem addPoints_itemsPosted (u : User) (p : Nat) :
    (addPoints u p).itemsPosted = u.itemsPosted := by
  unfold addPoints
  by_cases h : u.level < (u.points + p) / 100 + 1 <;> simp [h]

/-- One addPoints call preserves the level invariant. -/
theorem addPoints_level (u : User) (p : Nat)
    (hu : u.level = u.points / 100 + 1) :
    (addPoints u p).level = (addPoints u p).points / 100 + 1 := by
  unfold addPoints
  by_cases h : u.level < (u.points + p) / 100 + 1
  · simp [h]
  · have hmono : u.points / 100 ≤ (u.points + p) / 100 :=
      Nat.div_le_div_right (Nat.le_add_right u.points p)
    simp only [h, if_false]
    omega

/-- C7 (amended): starting from a user satisfying it, the invariant
level = floor(points/100)+1 is preserved by every sequence of addPoints
calls; a single call crossing one or more 100-point boundaries (the
recomputed level exceeds the stored one) appends exactly one level badge,
named for the new level — not one per boundary — and a call crossing none
appends no badge. -/
theorem addPoints_level_invariant_badges (u : User) (ps : List Nat) (p : Nat)
    (hu : u.level = u.points / 100 + 1) :
    (ps.foldl addPoints u).level = (ps.foldl addPoints u).points / 100 + 1 ∧
    (addPoints u p).badges.length =
      u.badges.length + (if u.level < (u.points + p) / 100 + 1 then 1 else 0) ∧
    (u.level < (u.points + p) / 100 + 1 →
      (addPoints u p).badges = u.badges ++ [levelBadge ((addPoints u p).level)]) ∧
    (¬ u.level < (u.points + p) / 100 + 1 →
      (addPoints u p).badges = u.badges) := by
  refine ⟨?_, ?_, ?_, ?_⟩
  · clear p
    induction ps generalizing u with
    | nil => exact hu
    | cons q rest ih =>
      rw [List.foldl_cons]
      exact ih (addPoints u q) (addPoints_level u q hu)
  · unfold addPoints
    by_cases h : u.level < (u.points + p) / 100 + 1
    · simp [h]
    · simp [h]
  · intro h
    unfold addPoints
    simp [h]
  · intro h
    unfold addPoints
    simp [h]

/-- C7 counterexample: from 0 points at level 1, a single addPoints(200)
call crosses the 100-point boundaries at 100 and 200 yet appends exactly
one badge (Level 3), not one badge per boundary crossed. -/
theorem addPoints_one_badge_for_two_boundaries :
    (addPoints userZ 200).level = 3 ∧
    (addPoints userZ 200).badges = [levelBadge 3] ∧
    (addPoints userZ 200).badges.length ≠ 2 := by
  refine ⟨rfl, rfl, by decide⟩

/-- Witness for C7 at a concrete user and call sequence. -/
theorem addPoints_level_invariant_badges_witness :
    userZ.level = userZ.points / 100 + 1 ∧
    ((([150, 75] : List Nat).foldl addPoints userZ).level =
      (([150, 75] : List Nat).foldl addPoints userZ).points / 100 + 1 ∧
    (addPoints userZ 200).badges.length =
      userZ.badges.length +
        (if userZ.level < (userZ.points + 200) / 100 + 1 then 1 else 0) ∧
    (userZ.level < (userZ.points + 200) / 100 + 1 →
      (addPoints userZ 200).badges =
        userZ.badges ++ [levelBadge ((addPoints userZ 200).level)]) ∧
    (¬ userZ.level < (userZ.points + 200) / 100 + 1 →
      (addPoints userZ 200).badges = userZ.badges)) :=
  ⟨by decide, addPoints_level_invariant_badges userZ [150, 75] 200 (by decide)⟩

/-- C6: the resolve route awards 50 points unconditionally on every owner
call; at a concrete item, the owner's first Resolve leaves 50 points and a
second Resolve of the already-resolved item raises the total to 100 instead
of leaving it unchanged. -/
theorem resolveItem_double_award :
    ∃ it1 u1 it2 u2,
      resolveItem itemR userZ 1 40 = Except.ok (it1, u1) ∧
      it1.status = ItemStatus.resolved ∧ u1.points = 50 ∧
      resolveItem it1 u1 1 41 = Except.ok (it2, u2) ∧
      u2.points = 100 ∧ u2.points ≠ u1.points :=
  ⟨_, _, _, _, rfl, rfl, rfl, rfl, rfl, by decide⟩

/-- updateItemFields never changes type, status, postedBy, views, images,
expiresAt or potentialMatches. -/
theorem updateItemFields_frame (it : Item) (b : UpdateBody) :
    (updateItemFields it b).type = it.type ∧
    (updateItemFields it b).status = it.status ∧
    (updateItemFields it b).postedBy = it.postedBy ∧
    (updateItemFields it b).views = it.views ∧
    (updateItemFields it b).images = it.images ∧
    (updateItemFields it b).expiresAt = it.expiresAt ∧
    (updateItemFields it b).potentialMatches = it.potentialMatches := by
  unfold updateItemFields
  rcases b with ⟨t, d, c, l, tg, r, ci⟩
  rcases t with _ | t <;> rcases d with _ | d <;> rcases c with _ | c <;>
    rcases l with _ | l <;> rcases tg with _ | tg <;> rcases r with _ | r <;>
    rcases ci with _ | ci <;>
    simp only [] <;> (try split_ifs) <;> simp

/-- C10: an owner's update succeeds and changes none of type, status,
postedBy, views, images, expiresAt, potentialMatches, whatever fields the
request body holds. -/
theorem updateItem_frame (it : Item) (callerId : Nat) (b : UpdateBody)
    (h : it.postedBy = callerId) :
    updateItem it callerId b = Except.ok (updateItemFields it b) ∧
    ((updateItemFields it b).type = it.type ∧
     (updateItemFields it b).status = it.status ∧
     (updateItemFields it b).postedBy = it.postedBy ∧
     (updateItemFields it b).views = it.views ∧
     (updateItemFields it b).images = it.images ∧
     (updateItemFields it b).expiresAt = it.expiresAt ∧
     (updateItemFields it b).potentialMatches = it.potentialMatches) := by
  constructor
  · unfold updateItem
    simp [h]
  · exact updateItemFields_frame it b

/-- Witness for C10 at a concrete item and body. -/
theorem updateItem_frame_witness :
    itemR.postedBy = 1 ∧
    (updateItem itemR 1 bodyU = Except.ok (updateItemFields itemR bodyU) ∧
    ((updateItemFields itemR bodyU).type = itemR.type ∧
     (updateItemFields itemR bodyU).status = itemR.status ∧
     (updateItemFields itemR bodyU).postedBy = itemR.postedBy ∧
     (updateItemFields itemR bodyU).views = itemR.views ∧
     (updateItemFields itemR bodyU).images = itemR.images ∧
     (updateItemFields itemR bodyU).expiresAt = itemR.expiresAt ∧
     (updateItemFields itemR bodyU).potentialMatches = itemR.potentialMatches)) :=
  ⟨rfl, updateItem_frame itemR 1 bodyU rfl⟩

/-- C3 (amended): MarkChatRead zeroes the requester's entry of the chat's
denormalized unreadCount map and leaves every other entry and the message
collection — hence the message-based unread count of the claim's
definition — unchanged. -/
theorem markChatRead_zeroes_map (chat : Chat) (msgs : List Message)
    (a now : Nat) (h : chat.participants.contains a = true) :
    ∃ c2, markChatRead chat msgs a now = Except.ok (c2, msgs) ∧
      c2.unreadCount a = 0 ∧
      (∀ b, b ≠ a → c2.unreadCount b = chat.unreadCount b) := by
  have hmem : a ∈ chat.participants := by simpa using h
  refine ⟨Chat.markAsRead chat a now, ?_, ?_, ?_⟩
  · unfold markChatRead
    simp [hmem]
  · simp [Chat.markAsRead]
  · intro b hb
    simp [Chat.markAsRead, hb]

/-- C3 counterexample: with one message from user 2 unread by user 1,
MarkChatRead by user 1 succeeds yet the message-based unread count — the
claim's own definition of UnreadCount — is still 1, not 0: markAsRead only
zeroes the denormalized map and touches no message's readBy. -/
theorem markChatRead_leaves_message_count :
    ∃ c2 m2, markChatRead chatC [msgA] 1 99 = Except.ok (c2, m2) ∧
      getUnreadCount m2 chatC.id 1 = 1 ∧ getUnreadCount m2 chatC.id 1 ≠ 0 :=
  ⟨_, _, rfl, rfl, by decide⟩

/-- Witness for C3 at a concrete chat and requester. -/
theorem markChatRead_zeroes_map_witness :
    chatC.participants.contains 1 = true ∧
    (∃ c2, markChatRead chatC [msgA] 1 99 = Except.ok (c2, [msgA]) ∧
      c2.unreadCount 1 = 0 ∧
      (∀ b, b ≠ 1 → c2.unreadCount b = chatC.unreadCount b)) :=
  ⟨by decide, markChatRead_zeroes_map chatC [msgA] 1 99 (by decide)⟩

/-- C9: when the requester is the item's poster, POST /api/chat/start fails
with the 400 validation error "Cannot start chat with yourself" before
findOrCreate runs, so no chat is created. -/
theorem startChat_self_rejected (st : AppState)
    (requester itemId newChatId newMsgId now : Nat) (message : Option String)
    (item : Item)
    (hfind : st.items.find? (fun it => it.id == itemId) = some item)
    (hown : item.postedBy = requester) :
    startChat st requester itemId newChatId newMsgId now message
      = Except.error (400, "Cannot start chat with yourself") := by
  unfold startChat
  rw [hfind]
  simp [hown]

/-- Witness for C9: the poster of itemR asking to chat about itemR. -/
theorem startChat_self_rejected_witness :
    ((⟨[itemR], [], []⟩ : AppState).items.find? (fun it => it.id == 1)
      = some itemR) ∧
    itemR.postedBy = 1 ∧
    startChat ⟨[itemR], [], []⟩ 1 1 20 30 40 (some "hi this is mine")
      = Except.error (400, "Cannot start chat with yourself") :=
  ⟨rfl, rfl,
    startChat_self_rejected ⟨[itemR], [], []⟩ 1 1 20 30 40
      (some "hi this is mine") itemR rfl rfl⟩

/-- The first id occurs in the sorted pair. -/
theorem mem_sortPair_left (a b : Nat) : a ∈ sortPair a b := by
  unfold sortPair
  split <;> simp

/-- The second id occurs in the sorted pair. -/
theorem mem_sortPair_right (a b : Nat) : b ∈ sortPair a b := by
  unfold sortPair
  split <;> simp

/-- The findOrCreate lookup filter over the sorted pair, in a symmetric
normal form. -/
theorem chatLookupPred_sortPair (a b i : Nat) (c : Chat) :
    chatLookupPred (sortPair a b) i c
      = (c.participants.contains a && c.participants.contains b
          && c.itemId == i) := by
  unfold chatLookupPred sortPair
  split
  · show ((c.participants.contains a && (c.participants.contains b && true))
        && (c.itemId == i))
      = (c.participants.contains a && c.participants.contains b
          && c.itemId == i)
    generalize c.participants.contains a = x
    generalize c.participants.contains b = y
    generalize (c.itemId == i) = z
    cases x <;> cases y <;> cases z <;> rfl
  · show ((c.participants.contains b && (c.participants.contains a && true))
        && (c.itemId == i))
      = (c.participants.contains a && c.participants.contains b
          && c.itemId == i)
    generalize c.participants.contains a = x
    generalize c.participants.contains b = y
    generalize (c.itemId == i) = z
    cases x <;> cases y <;> cases z <;> rfl

/-- Swapping the pair does not change the lookup filter. -/
theorem chatLookupPred_swap (a b i : Nat) :
    chatLookupPred (sortPair a b) i = chatLookupPred (sortPair b a) i := by
  funext c
  rw [chatLookupPred_sortPair, chatLookupPred_sortPair]
  generalize c.participants.contains a = x
  generalize c.participants.contains b = y
  generalize (c.itemId == i) = z
  cases x <;> cases y <;> cases z <;> rfl

/-- C4: a second findOrCreate for the same unordered pair of users and the
same item, in either argument order, returns the chat of the first call and
leaves the chat collection unchanged: the first call creates the chat when
absent and no later call creates a second one. -/
theorem findOrCreate_stable (db : List Chat) (n1 n2 a b i now1 now2 v1 v2 : Nat)
    (hv : (v1 = a ∧ v2 = b) ∨ (v1 = b ∧ v2 = a)) :
    findOrCreate (findOrCreate db n1 a b i now1).2 n2 v1 v2 i now2
      = ((findOrCreate db n1 a b i now1).1,
         (findOrCreate db n1 a b i now1).2) := by
  have hpred : chatLookupPred (sortPair v1 v2) i
      = chatLookupPred (sortPair a b) i := by
    rcases hv with ⟨h1, h2⟩ | ⟨h1, h2⟩
    · rw [h1, h2]
    · rw [h1, h2]
      exact (chatLookupPred_swap a b i).symm
  unfold findOrCreate
  simp only [hpred]
  cases hfind : db.find? (chatLookupPred (sortPair a b) i) with
  | some c =>
    simp [hfind]
  | none =>
    have hnew : chatLookupPred (sortPair a b) i
        { id := n1, participants := sortPair a b, itemId := i,
          lastMessage := none, unreadCount := fun _ => 0, isActive := true,
          startedAt := now1, lastActivity := now1 } = true := by
      rw [chatLookupPred_sortPair]
      show ((List.elem a (sortPair a b) && List.elem b (sortPair a b))
          && (i == i)) = true
      rw [List.elem_eq_true_of_mem (mem_sortPair_left a b),
          List.elem_eq_true_of_mem (mem_sortPair_right a b)]
      simp
    simp [hfind, List.find?_append, hnew]

/-- Witness for C4: first contact creates the chat for users 2 and 1 about
item 5; the second call with swapped arguments returns it unchanged. -/
theorem findOrCreate_stable_witness :
    ((1 = 2 ∧ 2 = 1) ∨ (1 = 1 ∧ 2 = 2)) ∧
    findOrCreate (findOrCreate [] 10 2 1 5 0).2 11 1 2 5 7
      = ((findOrCreate [] 10 2 1 5 0).1, (findOrCreate [] 10 2 1 5 0).2) :=
  ⟨Or.inr ⟨rfl, rfl⟩,
    findOrCreate_stable [] 10 11 2 1 5 0 7 1 2 (Or.inr ⟨rfl, rfl⟩)⟩

/-- Effect of the pre-save loop over the participants on one unread
counter: participants other than the sender gain exactly 1, everyone else
is untouched. -/
theorem foldl_incrementUnread (ps : List Nat) (c : Chat)
    (senderId now b : Nat) (hnd : ps.Nodup) :
    (ps.foldl
      (fun acc p => if p != senderId then Chat.incrementUnread acc p now
                    else acc) c).unreadCount b
      = c.unreadCount b + (if b ∈ ps ∧ b ≠ senderId then 1 else 0) := by
  induction ps generalizing c with
  | nil => simp
  | cons p rest ih =>
    have hp : p ∉ rest := (List.nodup_cons.mp hnd).1
    have hrest : rest.Nodup := (List.nodup_cons.mp hnd).2
    rw [List.foldl_cons]
    rw [ih _ hrest]
    by_cases hps : p = senderId
    · have hstep : (if p != senderId then Chat.incrementUnread c p now
          else c) = c := by
        simp [hps]
      rw [hstep]
      by_cases hbs : b = senderId
      · simp [hbs]
      · by_cases hbr : b ∈ rest
        · have : b ∈ p :: rest := List.mem_cons_of_mem p hbr
          simp [hbr, hbs, this]
        · have hbp : b ≠ p := fun h => hbs (h.trans hps)
          have : b ∉ p :: rest := by
            simp [List.mem_cons, hbp, hbr]
          simp [hbr, hbs, this]
    · have hstep : (if p != senderId then Chat.incrementUnread c p now
          else c) = Chat.incrementUnread c p now := by
        simp [hps]
      rw [hstep]
      by_cases hbp : b = p
      · have hbs : b ≠ senderId := hbp ▸ hps
        have hbr : b ∉ rest := hbp ▸ hp
        have hmem : b ∈ p :: rest := by simp [hbp]
        simp [Chat.incrementUnread, hbp, hbs, hbr, hmem, hp, hps]
      · have huc : (Chat.incrementUnread c p now).unreadCount b
            = c.unreadCount b := by
          simp [Chat.incrementUnread, hbp]
        rw [huc]
        by_cases hbr : b ∈ rest
        · have : b ∈ p :: rest := List.mem_cons_of_mem p hbr
          simp [hbr, this]
        · have : b ∉ p :: rest := by
            simp [List.mem_cons, hbp, hbr]
          simp [hbr, this]

/-- Appending one message changes getUnreadCount by 1 exactly when the new
message is in the chat, from another sender, and unread. -/
theorem getUnreadCount_append (msgs : List Message) (m : Message)
    (chatId userId : Nat) :
    getUnreadCount (msgs ++ [m]) chatId userId
      = getUnreadCount msgs chatId userId +
        (if unreadPred chatId userId m = true then 1 else 0) := by
  unfold getUnreadCount
  rw [List.filter_append]
  rw [List.length_append]
  congr 1
  by_cases h : unreadPred chatId userId m = true
  · rw [if_pos h]
    simp [List.filter_cons, h]
  · rw [if_neg h]
    simp only [Bool.not_eq_true] at h
    simp [List.filter_cons, h]

/-- C2: after SendMessage by participant A, the chat's denormalized
unreadCount rises by exactly 1 for every participant B ≠ A and is unchanged
for A, and the message-based count getUnreadCount behaves identically. -/
theorem sendMessage_unread (chat : Chat) (msgs : List Message)
    (a b msgId now : Nat) (content : String)
    (ha : chat.participants.contains a = true)
    (hnd : chat.participants.Nodup)
    (hb : b ∈ chat.participants) (hba : b ≠ a) :
    ∃ st2, sendMessage ⟨chat, msgs⟩ a content msgId now = Except.ok st2 ∧
      st2.chat.unreadCount b = chat.unreadCount b + 1 ∧
      st2.chat.unreadCount a = chat.unreadCount a ∧
      getUnreadCount st2.messages chat.id b
        = getUnreadCount msgs chat.id b + 1 ∧
      getUnreadCount st2.messages chat.id a
        = getUnreadCount msgs chat.id a := by
  refine ⟨saveMessage ⟨chat, msgs⟩ a content msgId now, ?_, ?_, ?_, ?_, ?_⟩
  · unfold sendMessage
    simp only [ha, if_true]
  · unfold saveMessage
    simp only []
    rw [foldl_incrementUnread _ _ _ _ _ hnd]
    simp [hb, hba]
  · unfold saveMessage
    simp only []
    rw [foldl_incrementUnread _ _ _ _ _ hnd]
    simp
  · unfold saveMessage
    simp only []
    rw [getUnreadCount_append]
    have hab : a ≠ b := fun h => hba h.symm
    simp [unreadPred, hab]
  · unfold saveMessage
    simp only []
    rw [getUnreadCount_append]
    simp [unreadPred]

/-- Witness for C2: user 1 sends into the empty chat between 1 and 2. -/
theorem sendMessage_unread_witness :
    chatC.participants.contains 1 = true ∧ chatC.participants.Nodup ∧
    2 ∈ chatC.participants ∧ (2 : Nat) ≠ 1 ∧
    (∃ st2, sendMessage ⟨chatC, []⟩ 1 "hey i found it" 7 50 = Except.ok st2 ∧
      st2.chat.unreadCount 2 = chatC.unreadCount 2 + 1 ∧
      st2.chat.unreadCount 1 = chatC.unreadCount 1 ∧
      getUnreadCount st2.messages chatC.id 2
        = getUnreadCount [] chatC.id 2 + 1 ∧
      getUnreadCount st2.messages chatC.id 1
        = getUnreadCount [] chatC.id 1) :=
  ⟨by decide, by decide, by decide, by decide,
    sendMessage_unread chatC [] 1 2 7 50 "hey i found it"
      (by decide) (by decide) (by decide) (by decide)⟩

/-- Appending a readBy entry for the requester falsifies the unread query
for that requester. -/
theorem unreadPred_mark_false (m : Message) (chatId requester now : Nat) :
    unreadPred chatId requester
      { m with readBy := m.readBy ++ [{ userId := requester, readAt := now }] }
      = false := by
  unfold unreadPred
  simp [List.any_append]

/-- The updateMany of ListMessages zeroes the message-based unread count of
the requester. -/
theorem getUnreadCount_markAllReadBy (msgs : List Message)
    (chatId requester now : Nat) :
    getUnreadCount (markAllReadBy msgs chatId requester now) chatId requester
      = 0 := by
  unfold getUnreadCount markAllReadBy
  rw [List.length_eq_zero]
  rw [List.filter_eq_nil_iff]
  intro x hx
  rcases List.mem_map.mp hx with ⟨m, hm, rfl⟩
  by_cases hc : unreadPred chatId requester m = true
  · rw [if_pos hc]
    simp [unreadPred_mark_false]
  · rw [if_neg hc]
    exact fun hcon => hc hcon

/-- sortNewestFirst is sorted by descending creation time. -/
theorem sortNewestFirst_sorted (msgs : List Message) (chatId : Nat) :
    (sortNewestFirst msgs chatId).Pairwise
      (fun x y => y.createdAt ≤ x.createdAt) := by
  unfold sortNewestFirst
  have htrans : ∀ a b c : Message,
      (decide (b.createdAt ≤ a.createdAt) = true) →
      (decide (c.createdAt ≤ b.createdAt) = true) →
      (decide (c.createdAt ≤ a.createdAt) = true) := by
    intro a b c h1 h2
    simp only [decide_eq_true_eq] at *
    exact Nat.le_trans h2 h1
  have htotal : ∀ a b : Message,
      ((decide (b.createdAt ≤ a.createdAt) ||
        decide (a.createdAt ≤ b.createdAt)) = true) := by
    intro a b
    simp only [Bool.or_eq_true, decide_eq_true_eq]
    exact Nat.le_total _ _
  have hs := List.sorted_mergeSort htrans htotal
    (msgs.filter (fun m => m.chatId == chatId))
  exact hs.imp (fun h => by simpa using h)

/-- Members of sortNewestFirst are messages of the chat. -/
theorem mem_sortNewestFirst {msgs : List Message} {chatId : Nat} {m : Message}
    (h : m ∈ sortNewestFirst msgs chatId) : m ∈ msgs ∧ m.chatId = chatId := by
  unfold sortNewestFirst at h
  have h2 := List.mem_mergeSort.mp h
  have h3 := List.mem_filter.mp h2
  exact ⟨h3.1, by simpa using h3.2⟩

/-- C5 (amended): for a participant requester, ListMessages returns the
requested page of the chat's messages re-ordered oldest-first, and its side
effects mark every unread message of the whole chat — not only those in the
page — as read by the requester (appending a readBy entry) and zero the
requester's entry of the chat's unreadCount, so the message-based unread
count also reaches 0. -/
theorem listMessages_spec (chat : Chat) (msgs : List Message)
    (requester page limit now : Nat)
    (h : chat.participants.contains requester = true) :
    ∃ r, listMessages chat msgs requester page limit now = Except.ok r ∧
      r.page.Pairwise (fun x y => x.createdAt ≤ y.createdAt) ∧
      (∀ m ∈ r.page, m ∈ msgs ∧ m.chatId = chat.id) ∧
      r.page.length ≤ limit ∧
      r.chat.unreadCount requester = 0 ∧
      getUnreadCount r.messages chat.id requester = 0 ∧
      (∀ m ∈ msgs, m.chatId = chat.id → m.sender ≠ requester →
        ∃ m2 ∈ r.messages, m2.id = m.id ∧
          m2.readBy.any (fun rd => rd.userId == requester) = true) := by
  have hmem : requester ∈ chat.participants := by simpa using h
  refine ⟨{ page := (((sortNewestFirst msgs chat.id).drop
              ((page - 1) * limit)).take limit).reverse,
            chat := Chat.markAsRead chat requester now,
            messages := markAllReadBy msgs chat.id requester now },
          ?_, ?_, ?_, ?_, ?_, ?_, ?_⟩
  · unfold listMessages
    simp [hmem]
  · have hs := sortNewestFirst_sorted msgs chat.id
    have h1 : (((sortNewestFirst msgs chat.id).drop
        ((page - 1) * limit)).take limit).Pairwise
        (fun x y => y.createdAt ≤ x.createdAt) :=
      List.Pairwise.sublist
        ((List.take_sublist _ _).trans (List.drop_sublist _ _)) hs
    exact List.pairwise_reverse.mpr h1
  · intro m hm
    have hm1 := List.mem_reverse.mp hm
    have hm2 : m ∈ sortNewestFirst msgs chat.id :=
      ((List.take_sublist _ _).trans (List.drop_sublist _ _)).mem hm1
    exact mem_sortNewestFirst hm2
  · rw [List.length_reverse]
    exact List.length_take_le _ _
  · simp [Chat.markAsRead]
  · exact getUnreadCount_markAllReadBy msgs chat.id requester now
  · intro m hm hchat hsend
    refine ⟨if unreadPred chat.id requester m then
        { m with readBy := m.readBy ++ [{ userId := requester, readAt := now }] }
      else m, ?_, ?_, ?_⟩
    · unfold markAllReadBy
      exact List.mem_map_of_mem _ hm
    · by_cases hc : unreadPred chat.id requester m = true <;> simp [hc]
    · by_cases hc : unreadPred chat.id requester m = true
      · simp [hc, List.any_append]
      · have hcf : unreadPred chat.id requester m = false := by
          revert hc
          cases unreadPred chat.id requester m <;> simp
        rw [hcf]
        simp only [Bool.false_eq_true, if_false]
        have hA : (m.chatId == chat.id) = true := by simp [hchat]
        have hB : (m.sender != requester) = true := by simp [hsend]
        unfold unreadPred at hcf
        rw [hA, hB] at hcf
        simp at hcf
        simpa using hcf

/-- C5 counterexample: with two unread messages from user 2 and pageSize 1,
the delivered page holds only the newest message, yet the older message
outside the page is marked read too — the updateMany side effect is not
restricted to the returned page. -/
theorem listMessages_marks_outside_page :
    ∃ r, listMessages chatC [msgB, msgA] 1 1 1 99 = Except.ok r ∧
      r.page = [msgB] ∧ msgA ∉ r.page ∧
      r.messages = [{ msgB with readBy := [{ userId := 1, readAt := 99 }] },
                    { msgA with readBy := [{ userId := 1, readAt := 99 }] }] := by
  have hs : sortNewestFirst [msgB, msgA] chatC.id = [msgB, msgA] := by
    unfold sortNewestFirst
    rw [show List.filter (fun m => m.chatId == chatC.id) [msgB, msgA]
        = [msgB, msgA] from rfl]
    exact List.mergeSort_of_sorted (by decide)
  refine ⟨{ page := [msgB], chat := Chat.markAsRead chatC 1 99,
            messages := [{ msgB with readBy := [{ userId := 1, readAt := 99 }] },
                         { msgA with readBy := [{ userId := 1, readAt := 99 }] }] },
          ?_, rfl, by decide, rfl⟩
  unfold listMessages
  rw [hs]
  rfl

/-- Witness for C5 at a concrete chat, message log and page request. -/
theorem listMessages_spec_witness :
    chatC.participants.contains 1 = true ∧
    (∃ r, listMessages chatC [msgB, msgA] 1 1 50 99 = Except.ok r ∧
      r.page.Pairwise (fun x y => x.createdAt ≤ y.createdAt) ∧
      (∀ m ∈ r.page, m ∈ [msgB, msgA] ∧ m.chatId = chatC.id) ∧
      r.page.length ≤ 50 ∧
      r.chat.unreadCount 1 = 0 ∧
      getUnreadCount r.messages chatC.id 1 = 0 ∧
      (∀ m ∈ [msgB, msgA], m.chatId = chatC.id → m.sender ≠ 1 →
        ∃ m2 ∈ r.messages, m2.id = m.id ∧
          m2.readBy.any (fun rd => rd.userId == 1) = true)) :=
  ⟨by decide, listMessages_spec chatC [msgB, msgA] 1 1 50 99 (by decide)⟩

/-- addPotentialMatch with a fresh id appends the entry. -/
theorem addPotentialMatch_push (it : Item) (i : Nat) (c : ℚ)
    (h : ∀ q ∈ it.potentialMatches, q.itemId ≠ i) :
    addPotentialMatch it i c
      = { it with potentialMatches :=
            it.potentialMatches ++ [{ itemId := i, confidence := c }] } := by
  have hfalse : ¬ ((it.potentialMatches.any (fun m => m.itemId == i)) = true) := by
    intro hx
    rcases List.any_eq_true.mp hx with ⟨q, hq, hbe⟩
    exact h q hq (by simpa using hbe)
  unfold addPotentialMatch
  rw [if_neg hfalse]

/-- addPotentialMatch never changes expiresAt. -/
theorem addPotentialMatch_expiresAt (it : Item) (i : Nat) (c : ℚ) :
    (addPotentialMatch it i c).expiresAt = it.expiresAt := by
  unfold addPotentialMatch
  split <;> rfl

/-- Folding addPotentialMatch leaves expiresAt unchanged. -/
theorem foldl_addPotentialMatch_expiresAt (ms : List Item) (it : Item) (c : ℚ) :
    (ms.foldl (fun acc m => addPotentialMatch acc m.id c) it).expiresAt
      = it.expiresAt := by
  induction ms generalizing it with
  | nil => rfl
  | cons m rest ih =>
    rw [List.foldl_cons, ih, addPotentialMatch_expiresAt]

/-- Folding addPotentialMatch over items with distinct ids, all fresh for
the accumulator, appends one entry per item in order. -/
theorem foldl_addPotentialMatch (ms : List Item) (it : Item) (c : ℚ)
    (hdisj : ∀ m ∈ ms, ∀ q ∈ it.potentialMatches, q.itemId ≠ m.id)
    (hnd : (ms.map Item.id).Nodup) :
    (ms.foldl (fun acc m => addPotentialMatch acc m.id c) it).potentialMatches
      = it.potentialMatches
        ++ ms.map (fun m => { itemId := m.id, confidence := c }) := by
  induction ms generalizing it with
  | nil => simp
  | cons m rest ih =>
    rw [List.foldl_cons, List.map_cons]
    rw [addPotentialMatch_push it m.id c
      (fun q hq => hdisj m (List.mem_cons_self m rest) q hq)]
    have hmid : m.id ∉ rest.map Item.id := by
      rw [List.map_cons] at hnd
      exact (List.nodup_cons.mp hnd).1
    have hnd2 : (rest.map Item.id).Nodup := by
      rw [List.map_cons] at hnd
      exact (List.nodup_cons.mp hnd).2
    have hdisj2 : ∀ m2 ∈ rest,
        ∀ q ∈ it.potentialMatches ++ [{ itemId := m.id, confidence := c }],
        q.itemId ≠ m2.id := by
      intro m2 hm2 q hq
      rcases List.mem_append.mp hq with hq1 | hq2
      · exact hdisj m2 (List.mem_cons_of_mem m hm2) q hq1
      · have hqe : q = { itemId := m.id, confidence := c } := by simpa using hq2
        subst hqe
        intro hcon
        simp only [] at hcon
        apply hmid
        rw [hcon]
        exact List.mem_map_of_mem Item.id hm2
    rw [ih _ hdisj2 hnd2]
    simp

/-- The ids of findPotentialMatches results are distinct when the database
ids are. -/
theorem findPotentialMatches_map_id_nodup (db : List Item)
    (dist : Coordinates → Coordinates → Nat) (itemId : Nat) (type : ItemType)
    (category : String) (coordinates : Coordinates)
    (hnd : (db.map Item.id).Nodup) :
    ((findPotentialMatches db dist itemId type category coordinates).map
      Item.id).Nodup := by
  unfold findPotentialMatches
  have h1 : (((db.filter
      (matchesQueryPred dist itemId type category coordinates)).map
      Item.id)).Nodup :=
    hnd.sublist ((List.filter_sublist db).map Item.id)
  have hperm := List.mergeSort_perm
    (db.filter (matchesQueryPred dist itemId type category coordinates))
    (fun a b =>
      decide (dist coordinates a.location.coordinates ≤
        dist coordinates b.location.coordinates))
  have h2 := ((hperm.map Item.id).nodup_iff).mpr h1
  exact h2.sublist ((List.take_sublist 10 _).map Item.id)

/-- C8: POST /api/items sets expiresAt to creation time plus 30 days,
increments the poster's itemsPosted by 1, awards the poster exactly 10
points, and appends one potentialMatches entry per Match Finder result,
each with confidence exactly 0.7. -/
theorem createItem_spec (st : CreateState)
    (dist : Coordinates → Coordinates → Nat) (newId posterId now : Nat)
    (inp : CreateInput) (images : List Image)
    (hnd : ((st.items ++ [newItemDoc newId posterId now inp images]).map
      Item.id).Nodup) :
    (createItem st dist newId posterId now inp images).item.expiresAt
        = now + 30 * 24 * 60 * 60 * 1000 ∧
    (createItem st dist newId posterId now inp images).user.itemsPosted
        = st.user.itemsPosted + 1 ∧
    (createItem st dist newId posterId now inp images).user.points
        = st.user.points + 10 ∧
    (createItem st dist newId posterId now inp images).item.potentialMatches
        = (findPotentialMatches
            (st.items ++ [newItemDoc newId posterId now inp images]) dist newId
            inp.type inp.category inp.location.coordinates).map
            (fun m => { itemId := m.id, confidence := (7 / 10 : ℚ) }) ∧
    ∀ pm ∈ (createItem st dist newId posterId now inp images).item.potentialMatches,
      pm.confidence = (7 / 10 : ℚ) := by
  have hcands : ((findPotentialMatches
      (st.items ++ [newItemDoc newId posterId now inp images]) dist newId
      inp.type inp.category inp.location.coordinates).map Item.id).Nodup :=
    findPotentialMatches_map_id_nodup _ dist newId inp.type inp.category
      inp.location.coordinates hnd
  have hpm : (createItem st dist newId posterId now inp images).item.potentialMatches
      = (findPotentialMatches
          (st.items ++ [newItemDoc newId posterId now inp images]) dist newId
          inp.type inp.category inp.location.coordinates).map
          (fun m => { itemId := m.id, confidence := (7 / 10 : ℚ) }) := by
    show ((findPotentialMatches
        (st.items ++ [newItemDoc newId posterId now inp images]) dist newId
        inp.type inp.category inp.location.coordinates).foldl
        (fun acc m => addPotentialMatch acc m.id (7 / 10 : ℚ))
        (newItemDoc newId posterId now inp images)).potentialMatches = _
    rw [foldl_addPotentialMatch _ _ _ ?_ hcands]
    · show ([] : List PotentialMatch) ++ _ = _
      rw [List.nil_append]
    · intro m hm q hq
      have : q ∈ ([] : List PotentialMatch) := hq
      simp at this
  refine ⟨?_, ?_, ?_, hpm, ?_⟩
  · show ((findPotentialMatches
        (st.items ++ [newItemDoc newId posterId now inp images]) dist newId
        inp.type inp.category inp.location.coordinates).foldl
        (fun acc m => addPotentialMatch acc m.id (7 / 10 : ℚ))
        (newItemDoc newId posterId now inp images)).expiresAt = _
    rw [foldl_addPotentialMatch_expiresAt]
    rfl
  · show (addPoints { st.user with itemsPosted := st.user.itemsPosted + 1 }
        10).itemsPosted = st.user.itemsPosted + 1
    rw [addPoints_itemsPosted]
  · show (addPoints { st.user with itemsPosted := st.user.itemsPosted + 1 }
        10).points = st.user.points + 10
    rw [addPoints_points]
  · intro pm hpm2
    rw [hpm] at hpm2
    rcases List.mem_map.mp hpm2 with ⟨m, hm, rfl⟩
    rfl

/-- Witness for C8: posting a lost Electronics item at the origin into a
database holding one matching found item. -/
theorem createItem_spec_witness :
    ((([itemA] ++ [newItemDoc 9 1 0 inpC []]).map Item.id).Nodup) ∧
    ((createItem ⟨[itemA], userZ⟩ exDist 9 1 0 inpC []).item.expiresAt
        = 0 + 30 * 24 * 60 * 60 * 1000 ∧
    (createItem ⟨[itemA], userZ⟩ exDist 9 1 0 inpC []).user.itemsPosted
        = userZ.itemsPosted + 1 ∧
    (createItem ⟨[itemA], userZ⟩ exDist 9 1 0 inpC []).user.points
        = userZ.points + 10 ∧
    (createItem ⟨[itemA], userZ⟩ exDist 9 1 0 inpC []).item.potentialMatches
        = (findPotentialMatches ([itemA] ++ [newItemDoc 9 1 0 inpC []]) exDist 9
            inpC.type inpC.category inpC.location.coordinates).map
            (fun m => { itemId := m.id, confidence := (7 / 10 : ℚ) }) ∧
    ∀ pm ∈ (createItem ⟨[itemA], userZ⟩ exDist 9 1 0 inpC []).item.potentialMatches,
      pm.confidence = (7 / 10 : ℚ)) :=
  ⟨by decide, createItem_spec ⟨[itemA], userZ⟩ exDist 9 1 0 inpC [] (by decide)⟩
